import Mathlib

/-!
Shallow embedding of the wine-catalog search application (src/app.py) and
theorems settling the specification's claims about it.  Strings are Lean
strings, numbers are rationals (the numeric behaviour at stake — parsing,
sign tests, defaults, unit conversion — is exact in this range), documents
are Lean structures, and the Mongo collection is a list of documents.
-/

namespace WineApp

/-- Meaning of the Python idiom `request.args.get(k) or default`: a missing
parameter or an empty (falsy) string falls back to the default. -/
def argOr (o : Option String) (d : String) : String :=
  match o with
  | none => d
  | some s => if s = "" then d else s

/-- Meaning of the Python idiom `s or default` on strings. -/
def strOr (s d : String) : String :=
  if s = "" then d else s

/-- Python slice `s[:n]` on a string (by characters). -/
def takeChars (n : Nat) (s : String) : String :=
  String.mk (s.data.take n)

/-- The whitespace characters Python `str.strip()` removes (the ASCII
fragment; exotic Unicode whitespace is outside the model). -/
def isPyWhitespace (c : Char) : Bool :=
  c = ' ' || c = '\t' || c = '\n' || c = '\r' || c = Char.ofNat 11 ||
    c = Char.ofNat 12

/-- Python `str.strip()`: drop whitespace from both ends. -/
def pyStrip (s : String) : String :=
  String.mk
    (((s.data.dropWhile isPyWhitespace).reverse.dropWhile isPyWhitespace).reverse)

/-- Numeric value of a list of decimal digit characters. -/
def natOfDigits (ds : List Char) : Nat :=
  ds.foldl (fun n c => 10 * n + (c.toNat - 48)) 0

/-- Optional leading sign of a numeric literal; returns (isNegative, rest). -/
def splitSign : List Char → Bool × List Char
  | '-' :: rest => (true, rest)
  | '+' :: rest => (false, rest)
  | cs => (false, cs)

/-- Parses a finite decimal literal (optional sign, digits, optional
fraction, optional exponent), the fragment of Python `float(...)` on
already-stripped input that the application exercises.  Spellings such as
inf, nan and underscore digit separators are outside the model. -/
def parseFloatChars (cs : List Char) : Option ℚ :=
  let sgn := splitSign cs
  let ip := sgn.2.takeWhile Char.isDigit
  let rest1 := sgn.2.dropWhile Char.isDigit
  let fracSplit : List Char × List Char :=
    match rest1 with
    | '.' :: r => (r.takeWhile Char.isDigit, r.dropWhile Char.isDigit)
    | _ => ([], rest1)
  let fp := fracSplit.1
  let rest2 := fracSplit.2
  if ip.isEmpty && fp.isEmpty then none
  else
    let mant : ℚ := (natOfDigits (ip ++ fp) : ℚ) / ((10 : ℚ) ^ fp.length)
    let signed : ℚ := if sgn.1 then -mant else mant
    match rest2 with
    | [] => some signed
    | e :: r =>
      if e = 'e' ∨ e = 'E' then
        let esgn := splitSign r
        let eds := esgn.2.takeWhile Char.isDigit
        let erest := esgn.2.dropWhile Char.isDigit
        if eds.isEmpty || !erest.isEmpty then none
        else if esgn.1 then some (signed / (10 : ℚ) ^ natOfDigits eds)
        else some (signed * (10 : ℚ) ^ natOfDigits eds)
      else none

/-- Python `float(s)` on a string, as an Option. -/
def parseFloat (s : String) : Option ℚ :=
  parseFloatChars s.data

/-- Embeds `km_to_meters` from src/app.py: converts a kilometre string to
metres, returning 0 when the string does not parse as a number. -/
def km_to_meters (km : String) : ℚ :=
  match parseFloat km with
  | some v => v * 1000
  | none => 0

/-- Atoms of the regular-expression fragment reachable from the search
code: a pattern produced by `regex_safe` consists only of literal
characters, and the dot atom records what an unescaped metacharacter
would have matched. -/
inductive RAtom where
  | lit (c : Char)
  | anyChar
deriving DecidableEq

/-- The characters Python `re.escape` escapes (its special-character map). -/
def specialChars : List Char :=
  ['(', ')', '[', ']', Char.ofNat 123, Char.ofNat 125, '?', '*', '+', '-',
   '|', '^', '$', '\\', '.', '&', '~', '#', ' ', '\t', '\n', '\r',
   Char.ofNat 11, Char.ofNat 12]

/-- Character-level body of `re.escape`: prefix every special character
with a backslash. -/
def escapeRegexChars : List Char → List Char
  | [] => []
  | c :: rest =>
    if specialChars.contains c then '\\' :: c :: escapeRegexChars rest
    else c :: escapeRegexChars rest

/-- Embeds `regex_safe` from src/app.py (`re.escape` on the query). -/
def regex_safe (s : String) : List Char :=
  escapeRegexChars s.data

/-- Compilation of the literal-and-dot regex fragment into atoms: a
backslash escapes the next character into a literal, a bare dot becomes
the any-character atom, anything else is itself a literal. -/
def compileAtoms : List Char → List RAtom
  | [] => []
  | c :: rest =>
    if c = '\\' then
      match rest with
      | [] => []
      | d :: rest2 => RAtom.lit d :: compileAtoms rest2
    else if c = '.' then RAtom.anyChar :: compileAtoms rest
    else RAtom.lit c :: compileAtoms rest

/-- Case-insensitive character comparison (the IGNORECASE flag). -/
def ciEqChar (a b : Char) : Bool :=
  a.toLower == b.toLower

/-- Whether one atom matches one character. -/
def atomMatches : RAtom → Char → Bool
  | RAtom.lit c, d => ciEqChar c d
  | RAtom.anyChar, _ => true

/-- Whether the atom list matches a prefix of the character list. -/
def matchFrom : List RAtom → List Char → Bool
  | [], _ => true
  | _ :: _, [] => false
  | a :: ps, c :: cs => atomMatches a c && matchFrom ps cs

/-- Regex search: the pattern matches starting at some position. -/
def regexFound (p : List RAtom) : List Char → Bool
  | [] => matchFrom p []
  | c :: cs => matchFrom p (c :: cs) || regexFound p cs

/-- Case-insensitive prefix test (needle, haystack). -/
def ciStartsWith : List Char → List Char → Bool
  | [], _ => true
  | _ :: _, [] => false
  | a :: as, b :: bs => ciEqChar a b && ciStartsWith as bs

/-- Case-insensitive literal substring containment (needle, haystack). -/
def containsCI (needle : List Char) : List Char → Bool
  | [] => ciStartsWith needle []
  | c :: cs => ciStartsWith needle (c :: cs) || containsCI needle cs

/-- Case-insensitive substring containment on strings. -/
def strContainsCI (needle hay : String) : Bool :=
  containsCI needle.data hay.data

/-- Substring containment against a nullable field: a null field contains
nothing. -/
def optContainsCI (needle : String) : Option String → Bool
  | none => false
  | some s => strContainsCI needle s

/-- Regex search against a nullable field: a null field never matches. -/
def optRegexFound (p : List RAtom) : Option String → Bool
  | none => false
  | some s => regexFound p s.data

/-- A stored comment document (the dict built in add_comment). -/
structure CommentDoc where
  cid : String
  text : String
  author : String
  createdAt : Nat
deriving DecidableEq

/-- A wine document.  Fields the collection may leave null are Options;
`location = some (lon, lat)` stands for a Point-typed location attribute
with those coordinates. -/
structure Wine where
  idStr : String
  title : String
  description : String
  winery : String
  variety : Option String
  country : Option String
  province : Option String
  points : Option ℚ
  price : Option ℚ
  location : Option (ℚ × ℚ)
  comments : List CommentDoc
deriving DecidableEq

/-- The filter clauses the search route can append (app.py lines 175-204). -/
inductive Clause where
  | textSearch (q : String)
  | regexOrAll (p : List RAtom)
  | regexOne (f : String) (p : List RAtom)
  | countryEq (c : String)
  | provinceEq (p : String)
  | geoWithin (lon lat rad : ℚ)
deriving DecidableEq

/-- The raw query parameters of the /search route; `none` is an absent
parameter. -/
structure SearchArgs where
  q : Option String
  field : Option String
  text : Option String
  country : Option String
  province : Option String
  geo_mode : Option String
  lat : Option String
  lon : Option String
  radius : Option String
  sort_by : Option String
deriving DecidableEq

/-- The parsed inputs of the /search route (app.py lines 160-171). -/
structure SearchInputs where
  q : String
  field : String
  useText : Bool
  country : String
  province : String
  geo_mode : String
  lat : String
  lon : String
  radius : String
  maxM : ℚ
  sort_by : String
deriving DecidableEq

/-- Embeds the input-parsing block of the search route. -/
def parseSearch (a : SearchArgs) : SearchInputs :=
  { q := pyStrip (argOr a.q "")
    field := pyStrip (argOr a.field "all")
    useText := argOr a.text "" == "1"
    country := pyStrip (argOr a.country "")
    province := pyStrip (argOr a.province "")
    geo_mode := pyStrip (argOr a.geo_mode "by_area")
    lat := pyStrip (argOr a.lat "")
    lon := pyStrip (argOr a.lon "")
    radius := pyStrip (argOr a.radius "50")
    maxM := km_to_meters (pyStrip (argOr a.radius "50"))
    sort_by := pyStrip (argOr a.sort_by "points_desc") }

/-- Embeds the text-search block (app.py lines 177-185): a text-index
clause when the text flag is on, otherwise an escaped case-insensitive
regex over all four fields or a single recognized field; any other field
selector adds nothing. -/
def textClauses (i : SearchInputs) : List Clause :=
  if i.q = "" then []
  else if i.useText then [Clause.textSearch i.q]
  else if i.field = "all" then
    [Clause.regexOrAll (compileAtoms (regex_safe i.q))]
  else if i.field = "title" ∨ i.field = "description" ∨ i.field = "variety" ∨ i.field = "winery" then
    [Clause.regexOne i.field (compileAtoms (regex_safe i.q))]
  else []

/-- Embeds the facet block (app.py lines 189-190). -/
def facetClauses (i : SearchInputs) : List Clause :=
  (if i.country = "" then [] else [Clause.countryEq i.country]) ++
  (if i.province = "" then [] else [Clause.provinceEq i.province])

/-- Embeds `centroid_for`: average the coordinates of the Point-tagged
records matching the optional country and province, null when nothing
matches. -/
def centroid_for (db : List Wine) (country province : Option String) :
    Option (ℚ × ℚ) :=
  let ms := db.filter (fun w =>
    (match country with | none => true | some c => w.country == some c) &&
    (match province with | none => true | some p => w.province == some p) &&
    w.location.isSome)
  let pts := ms.filterMap (fun w => w.location)
  if pts.isEmpty then none
  else some ((pts.map Prod.fst).sum / pts.length, (pts.map Prod.snd).sum / pts.length)

/-- Embeds the geospatial block (app.py lines 194-204): by_area consults
the centroid, by_coords parses the coordinate strings, failures add
nothing. -/
def geoClauses (db : List Wine) (i : SearchInputs) : List Clause :=
  if i.geo_mode = "by_area" ∧ 0 < i.maxM ∧ (¬ i.country = "" ∨ ¬ i.province = "") then
    match centroid_for db (if i.country = "" then none else some i.country)
        (if i.province = "" then none else some i.province) with
    | some (lon, lat) => [Clause.geoWithin lon lat (i.maxM / 6378100)]
    | none => []
  else if i.geo_mode = "by_coords" ∧ 0 < i.maxM ∧ ¬ i.lat = "" ∧ ¬ i.lon = "" then
    match parseFloat i.lat, parseFloat i.lon with
    | some la, some lo => [Clause.geoWithin lo la (i.maxM / 6378100)]
    | _, _ => []
  else []

/-- The full clause list the search route assembles for a request. -/
def searchClauses (db : List Wine) (a : SearchArgs) : List Clause :=
  textClauses (parseSearch a) ++ facetClauses (parseSearch a) ++
    geoClauses db (parseSearch a)

/-- Regex matching of one named field of a record. -/
def fieldRegex (f : String) (p : List RAtom) (w : Wine) : Bool :=
  if f = "title" then regexFound p w.title.data
  else if f = "description" then regexFound p w.description.data
  else if f = "winery" then regexFound p w.winery.data
  else if f = "variety" then optRegexFound p w.variety
  else false

/-- Whether one clause matches a record.  The database text index and the
geospatial index are external collaborators, so their verdicts are oracle
parameters. -/
def clauseMatches (ts : String → Wine → Bool) (gs : ℚ → ℚ → ℚ → Wine → Bool) :
    Clause → Wine → Bool
  | Clause.textSearch q, w => ts q w
  | Clause.regexOrAll p, w =>
      regexFound p w.title.data || regexFound p w.description.data ||
      regexFound p w.winery.data || optRegexFound p w.variety
  | Clause.regexOne f p, w => fieldRegex f p w
  | Clause.countryEq c, w => w.country == some c
  | Clause.provinceEq c, w => w.province == some c
  | Clause.geoWithin lon lat rad, w => gs lon lat rad w

/-- Whether a record matches the conjunction of all clauses (the final
query; an empty conjunction matches everything). -/
def queryMatches (ts : String → Wine → Bool) (gs : ℚ → ℚ → ℚ → Wine → Bool)
    (cs : List Clause) (w : Wine) : Bool :=
  cs.all (fun c => clauseMatches ts gs c w)

/-- A sort direction (pymongo ASCENDING and DESCENDING). -/
inductive SortDir where
  | asc
  | desc
deriving DecidableEq

/-- Embeds the sort-order block (app.py lines 214-223). -/
def sortSpec (sort_by : String) : List (String × SortDir) :=
  if sort_by = "price_asc" then [("price", SortDir.asc)]
  else if sort_by = "price_desc" then [("price", SortDir.desc)]
  else if sort_by = "points_asc" then [("points", SortDir.asc)]
  else [("points", SortDir.desc)]

/-- The sort order the search route uses for a request. -/
def searchSortOrder (a : SearchArgs) : List (String × SortDir) :=
  sortSpec (parseSearch a).sort_by

/-- Distinct values of a field with falsy values removed, sorted
ascending (a stable sort, like Python sorted) and capped, the shape
shared by get_filter_lists and provinces_for_country. -/
def sortedCappedDistinct (f : Wine → Option String) (db : List Wine)
    (cap : Nat) : List String :=
  (List.insertionSort (fun a b => a ≤ b)
    (((db.filterMap f).dedup).filter (fun s => s != ""))).take cap

/-- Embeds `get_filter_lists` with its default cap of 250. -/
def get_filter_lists (db : List Wine) : List String × List String :=
  (sortedCappedDistinct (fun w => w.country) db 250,
   sortedCappedDistinct (fun w => w.province) db 250)

/-- Embeds the provinces_for_country route: distinct provinces, scoped to
a country when one is given, capped at 300. -/
def provinces_for_country (db : List Wine) (countryArg : Option String) :
    List String :=
  let c := pyStrip (argOr countryArg "")
  let inScope := if c = "" then db else db.filter (fun w => w.country == some c)
  sortedCappedDistinct (fun w => w.province) inScope 300

/-- The combined stats record the aggregation projects. -/
structure StatsResult where
  avgPrice : Option ℚ
  avgPoints : Option ℚ
  topVariety : Option String
deriving DecidableEq

/-- Embeds `get_country_stats` (app.py lines 92-132).  The variety filter
in the source is the Python dict literal with the duplicated key
`{"$ne": None, "$ne": ""}`, which evaluates to just `{"$ne": ""}`, so
only empty-string varieties are excluded here; null varieties pass and
group under the null key.  `$avg` ignores null values, and an empty
group stage yields a null projected through `$ifNull`. -/
def get_country_stats (db : List Wine) (country_name : String) :
    Option StatsResult :=
  if country_name = "" then none
  else
    let matched := db.filter (fun w => w.country == some country_name)
    let prices := matched.filterMap (fun w => w.price)
    let pts := matched.filterMap (fun w => w.points)
    let vMatched := matched.filter (fun w => w.variety != some "")
    let keys := vMatched.map (fun w => w.variety)
    let counts :=
      List.insertionSort (fun x y => y.2 ≤ x.2)
        (keys.dedup.map (fun k => (k, keys.count k)))
    some
      { avgPrice := if prices.isEmpty then none else some (prices.sum / prices.length)
        avgPoints := if pts.isEmpty then none else some (pts.sum / pts.length)
        topVariety := match counts with | [] => none | (k, _) :: _ => k }

/-- Modelled from the spec: the database key type (bson ObjectId, an
external library) parses exactly 24-character hexadecimal strings and
raises on everything else. -/
def isValidObjectId (s : String) : Bool :=
  s.length == 24 && s.data.all (fun c =>
    c.isDigit || ('a' ≤ c && c ≤ 'f') || ('A' ≤ c && c ≤ 'F'))

/-- A stored GridFS blob: optional filename, optional content type, data. -/
structure BlobFile where
  filename : Option String
  contentType : Option String
  bytes : List Nat
deriving DecidableEq

/-- Responses of the image route. -/
inductive ImageResp where
  | blobResp (mimetype : String) (cacheControl : String) (bytes : List Nat)
  | defaultAsset
  | missing
deriving DecidableEq

/-- Characters after the last dot of a filename (`rsplit` with one dot),
when the name has a dot at all. -/
def afterLastDot (s : List Char) : Option (List Char) :=
  if s.contains '.' then some ((s.reverse.takeWhile (fun c => c != '.')).reverse)
  else none

/-- Truthy reading of an optional string: empty counts as absent. -/
def truthyOpt (o : Option String) : Option String :=
  match o with
  | some s => if s = "" then none else some s
  | none => none

/-- Embeds `get_image` (app.py lines 269-287).  `dflt` is the default
static asset (none when even that file is missing); `lookup` is the
GridFS bucket.  Any parse or lookup failure falls into the except arm. -/
def get_image (dflt : Option (List Nat)) (lookup : String → Option BlobFile)
    (id : String) : ImageResp :=
  let fallback := match dflt with
    | some _ => ImageResp.defaultAsset
    | none => ImageResp.missing
  if isValidObjectId id then
    match lookup id with
    | some f =>
      let filename := f.filename.getD "default.png"
      let inferred := match truthyOpt f.contentType with
        | some m => some m
        | none =>
          match afterLastDot filename.data with
          | some ext =>
            let e := String.mk (ext.map Char.toLower)
            if e = "png" then some "image/png"
            else if e = "jpg" ∨ e = "jpeg" then some "image/jpeg"
            else if e = "gif" then some "image/gif"
            else none
          | none => none
      ImageResp.blobResp (inferred.getD "application/octet-stream")
        "public, max-age=604800" f.bytes
    | none => fallback
  else fallback

/-- Responses of the comment route. -/
inductive CommentResp where
  | badRequest
  | invalidId
  | notFound
  | serverError
  | redirectToDetail
deriving DecidableEq

/-- The comment document add_comment builds: trimmed slice-capped text,
trimmed slice-capped author falling back to anonymous, a fresh id and the
current timestamp supplied by the environment. -/
def newComment (t a : Option String) (fid : String) (now : Nat) : CommentDoc :=
  { cid := fid
    text := takeChars 2000 (pyStrip (argOr t ""))
    author := strOr (takeChars 120 (pyStrip (argOr a "anonymous"))) "anonymous"
    createdAt := now }

/-- Pushes a comment onto the first record with the given id (the
`update_one` / `$push` call; _id is a unique key, so at most one document
matches). -/
def pushFirst (id : String) (c : CommentDoc) : List Wine → List Wine
  | [] => []
  | w :: ws =>
    if w.idStr == id then { w with comments := w.comments ++ [c] } :: ws
    else w :: pushFirst id c ws

/-- Embeds `add_comment` (app.py lines 290-316): validate the trimmed
text, parse the id, then conditionally push the new comment; the
server-error arm of the source is the catch of unexpected database
failures, which the pure model never takes. -/
def add_comment (db : List Wine) (id : String) (t a : Option String)
    (fid : String) (now : Nat) : CommentResp × List Wine :=
  let text := takeChars 2000 (pyStrip (argOr t ""))
  if text = "" then (CommentResp.badRequest, db)
  else if ¬ isValidObjectId id then (CommentResp.invalidId, db)
  else if db.any (fun w => w.idStr == id) then
    (CommentResp.redirectToDetail, pushFirst id (newComment t a fid now) db)
  else (CommentResp.notFound, db)

/-- Query parameters of a pure text search: a query string, field
selector all, text mode off, and no facet or geo parameters. -/
def textOnlyArgs (q0 : String) : SearchArgs :=
  { q := some q0, field := some "all", text := none, country := none,
    province := none, geo_mode := none, lat := none, lon := none,
    radius := none, sort_by := none }

/-- A concrete record whose title contains the query of the C1 witness. -/
def wineExample : Wine :=
  { idStr := "", title := "Fine Red Table Wine", description := "",
    winery := "", variety := none, country := none, province := none,
    points := none, price := none, location := none, comments := [] }

/-- Query parameters with only a sort key set. -/
def sortOnlyArgs (s : Option String) : SearchArgs :=
  { q := none, field := none, text := none, country := none, province := none,
    geo_mode := none, lat := none, lon := none, radius := none, sort_by := s }

/-- Query parameters with a query string and an unrecognized field
selector. -/
def unknownFieldArgs : SearchArgs :=
  { q := some "wine", field := some "bogus", text := none, country := none,
    province := none, geo_mode := none, lat := none, lon := none,
    radius := none, sort_by := none }

/-- Coordinate-mode parameters with an unparseable latitude. -/
def badLatArgs : SearchArgs :=
  { q := none, field := none, text := none, country := none, province := none,
    geo_mode := some "by_coords", lat := some "abc", lon := some "2",
    radius := none, sort_by := none }

/-- Coordinate-mode parameters with numeric latitude 1 and longitude 2. -/
def coordArgs : SearchArgs :=
  { q := none, field := none, text := none, country := none, province := none,
    geo_mode := some "by_coords", lat := some "1", lon := some "2",
    radius := none, sort_by := none }

/-- Area-mode parameters with radius -5. -/
def negRadiusArgs : SearchArgs :=
  { q := none, field := none, text := none, country := none, province := none,
    geo_mode := none, lat := none, lon := none, radius := some "-5",
    sort_by := none }

/-- Area-mode parameters over France with no radius parameter at all. -/
def areaArgsFr : SearchArgs :=
  { q := none, field := none, text := none, country := some "France",
    province := none, geo_mode := none, lat := none, lon := none,
    radius := none, sort_by := none }

/-- A one-record collection locating a French wine at lon 2, lat 48. -/
def dbFr : List Wine :=
  [{ idStr := "", title := "", description := "", winery := "",
     variety := none, country := some "France", province := none,
     points := none, price := none, location := some (2, 48),
     comments := [] }]

/-- Three records of country X: two with null variety, one Merlot. -/
def dbC2 : List Wine :=
  [{ idStr := "", title := "", description := "", winery := "",
     variety := none, country := some "X", province := none,
     points := none, price := none, location := none, comments := [] },
   { idStr := "", title := "", description := "", winery := "",
     variety := none, country := some "X", province := none,
     points := none, price := none, location := none, comments := [] },
   { idStr := "", title := "", description := "", winery := "",
     variety := some "Merlot", country := some "X", province := none,
     points := none, price := none, location := none, comments := [] }]

/-- A one-record collection whose record id is a well-formed key. -/
def dbOneWine : List Wine :=
  [{ idStr := "0123456789abcdef01234567", title := "", description := "",
     winery := "", variety := none, country := none, province := none,
     points := none, price := none, location := none, comments := [] }]

/-- A small collection over two countries for the facet-list witness;
one France record has an empty province. -/
def dbFacets : List Wine :=
  [{ idStr := "", title := "", description := "", winery := "",
     variety := none, country := some "France", province := some "Alsace",
     points := none, price := none, location := none, comments := [] },
   { idStr := "", title := "", description := "", winery := "",
     variety := none, country := some "Italy", province := some "Tuscany",
     points := none, price := none, location := none, comments := [] },
   { idStr := "", title := "", description := "", winery := "",
     variety := none, country := some "France", province := some "",
     points := none, price := none, location := none, comments := [] }]

/-! Lemmas: an escaped pattern compiles to pure literals and therefore
searches exactly for a case-insensitive literal substring. -/

theorem compileAtoms_escape (cs : List Char) :
    compileAtoms (escapeRegexChars cs) = cs.map RAtom.lit := by
  induction cs with
  | nil => rfl
  | cons c rest ih =>
    by_cases hs : specialChars.contains c = true
    · simp only [escapeRegexChars, hs, if_pos, compileAtoms, if_pos rfl, ih,
        List.map_cons]
    · have hb : ¬ c = '\\' := by
        intro h; exact hs (by rw [h]; decide)
      have hd : ¬ c = '.' := by
        intro h; exact hs (by rw [h]; decide)
      simp only [escapeRegexChars, hs, Bool.false_eq_true, if_false]
      rw [compileAtoms.eq_def]
      simp [hb, hd, ih]

theorem matchFrom_lits (q : List Char) : ∀ hay : List Char,
    matchFrom (q.map RAtom.lit) hay = ciStartsWith q hay := by
  induction q with
  | nil => intro hay; cases hay <;> rfl
  | cons a as ih =>
    intro hay
    cases hay with
    | nil => rfl
    | cons b bs => simp only [List.map_cons, matchFrom, ciStartsWith,
        atomMatches, ih]

theorem regexFound_lits (q hay : List Char) :
    regexFound (q.map RAtom.lit) hay = containsCI q hay := by
  induction hay with
  | nil => simp only [regexFound, containsCI, matchFrom_lits]
  | cons c cs ih => simp only [regexFound, containsCI, matchFrom_lits, ih]

theorem regexFound_escape (q hay : List Char) :
    regexFound (compileAtoms (escapeRegexChars q)) hay = containsCI q hay := by
  rw [compileAtoms_escape, regexFound_lits]

theorem regexFound_regex_safe (q : String) (hay : List Char) :
    regexFound (compileAtoms (regex_safe q)) hay = containsCI q.data hay :=
  regexFound_escape q.data hay

theorem optRegexFound_regex_safe (q : String) (v : Option String) :
    optRegexFound (compileAtoms (regex_safe q)) v = optContainsCI q v := by
  cases v with
  | none => rfl
  | some s =>
    simp only [optRegexFound, optContainsCI, strContainsCI,
      regexFound_regex_safe]

/-! Evaluation lemmas for the concrete rational values the witnesses
need; structural reduction exposes the arithmetic, norm_num closes it. -/

theorem km50 : km_to_meters "50" = 50000 := by
  rw [show km_to_meters "50" = ((50 : ℕ) : ℚ) / 10 ^ (0 : ℕ) * 1000 from rfl]
  norm_num

theorem kmNeg5 : km_to_meters "-5" = -5000 := by
  rw [show km_to_meters "-5" = -(((5 : ℕ) : ℚ) / 10 ^ (0 : ℕ)) * 1000 from rfl]
  norm_num

theorem parseFloat_one : parseFloat "1" = some 1 := by
  rw [show parseFloat "1" = some (((1 : ℕ) : ℚ) / 10 ^ (0 : ℕ)) from rfl]
  norm_num

theorem parseFloat_two : parseFloat "2" = some 2 := by
  rw [show parseFloat "2" = some (((2 : ℕ) : ℚ) / 10 ^ (0 : ℕ)) from rfl]
  norm_num

theorem coordArgs_maxM : (parseSearch coordArgs).maxM = 50000 := km50

/-- When both facets are empty and the mode is not by_coords, no geo
clause is built, whatever the radius. -/
theorem geoClauses_inactive (db : List Wine) (i : SearchInputs)
    (hc : i.country = "") (hp : i.province = "")
    (hm : ¬ i.geo_mode = "by_coords") : geoClauses db i = [] := by
  rw [geoClauses]
  rw [if_neg (fun h => by
    rcases h.2.2 with h' | h'
    · exact h' hc
    · exact h' hp)]
  rw [if_neg (fun h => hm h.1)]

/-- The geo clause built in by_coords mode from parseable coordinates
and a positive radius. -/
theorem geoClauses_by_coords (db : List Wine) (i : SearchInputs) (la lo : ℚ)
    (hmode : i.geo_mode = "by_coords") (hla : parseFloat i.lat = some la)
    (hlo : parseFloat i.lon = some lo) (hpos : 0 < i.maxM) :
    geoClauses db i = [Clause.geoWithin lo la (i.maxM / 6378100)] := by
  have hlat : ¬ i.lat = "" := by
    intro h
    rw [h, show parseFloat "" = (none : Option ℚ) from rfl] at hla
    exact Option.noConfusion hla
  have hlon : ¬ i.lon = "" := by
    intro h
    rw [h, show parseFloat "" = (none : Option ℚ) from rfl] at hlo
    exact Option.noConfusion hlo
  have hm : ¬ (i.geo_mode = "by_area" ∧ 0 < i.maxM ∧
      (¬ i.country = "" ∨ ¬ i.province = "")) := by
    intro hand
    rw [hmode] at hand
    exact absurd hand.1 (by decide)
  rw [geoClauses, if_neg hm, if_pos ⟨hmode, hpos, hlat, hlon⟩, hla, hlo]
/-- C1: for every non-empty query with text-mode off and field selector
all, the search filter is the single escaped case-insensitive regex OR
over title, description, winery and variety, and it matches a record
exactly when one of those fields contains the query case-insensitively
as a literal substring; escaping makes metacharacters inert, so the
query a.b does not match axb yet still matches a.b itself. -/
theorem c1_all_fields_regex_is_ci_substring (q0 : String)
    (hq : ¬ pyStrip q0 = "") (db : List Wine) (w : Wine)
    (ts : String → Wine → Bool) (gs : ℚ → ℚ → ℚ → Wine → Bool) :
    searchClauses db (textOnlyArgs q0) =
      [Clause.regexOrAll (compileAtoms (regex_safe (pyStrip q0)))] ∧
    (queryMatches ts gs (searchClauses db (textOnlyArgs q0)) w = true ↔
      (strContainsCI (pyStrip q0) w.title = true ∨
       strContainsCI (pyStrip q0) w.description = true ∨
       strContainsCI (pyStrip q0) w.winery = true ∨
       optContainsCI (pyStrip q0) w.variety = true)) ∧
    regexFound (compileAtoms (regex_safe "a.b")) "axb".data = false ∧
    regexFound (compileAtoms (regex_safe "a.b")) "xa.by".data = true := by
  have h0 : ¬ q0 = "" := by
    intro h; rw [h] at hq; exact hq rfl
  have hq' : (parseSearch (textOnlyArgs q0)).q = pyStrip q0 := by
    simp only [parseSearch, textOnlyArgs, argOr]
    rw [if_neg h0]
  have huse : (parseSearch (textOnlyArgs q0)).useText = false := rfl
  have hfield : (parseSearch (textOnlyArgs q0)).field = "all" := rfl
  have hcountry : (parseSearch (textOnlyArgs q0)).country = "" := rfl
  have hprov : (parseSearch (textOnlyArgs q0)).province = "" := rfl
  have hgeo : (parseSearch (textOnlyArgs q0)).geo_mode = "by_area" := rfl
  have htext : textClauses (parseSearch (textOnlyArgs q0)) =
      [Clause.regexOrAll (compileAtoms (regex_safe (pyStrip q0)))] := by
    simp [textClauses, hq', huse, hfield, hq]
  have hfacet : facetClauses (parseSearch (textOnlyArgs q0)) = [] := by
    simp [facetClauses, hcountry, hprov]
  have hgeoc : geoClauses db (parseSearch (textOnlyArgs q0)) = [] :=
    geoClauses_inactive db _ hcountry hprov (by rw [hgeo]; decide)
  have hclauses : searchClauses db (textOnlyArgs q0) =
      [Clause.regexOrAll (compileAtoms (regex_safe (pyStrip q0)))] := by
    rw [searchClauses, htext, hfacet, hgeoc]
    rfl
  refine ⟨hclauses, ?_, by decide, by decide⟩
  rw [hclauses]
  simp [queryMatches, clauseMatches, regexFound_regex_safe,
    optRegexFound_regex_safe, strContainsCI, or_assoc]

/-- Witness for C1 at the query red against a record whose title
contains Red. -/
theorem c1_all_fields_regex_witness :
    queryMatches (fun _ _ => false) (fun _ _ _ _ => false)
      (searchClauses [] (textOnlyArgs "red")) wineExample = true := by
  have h := c1_all_fields_regex_is_ci_substring "red" (by decide) []
    wineExample (fun _ _ => false) (fun _ _ _ _ => false)
  exact h.2.1.mpr (Or.inl (by decide))

/-- C5: the sort key maps price_asc to price ascending, price_desc to
price descending, points_asc to points ascending, and every other value,
including an absent or unrecognized sort_by such as bogus, to points
descending, the same order as points_desc. -/
theorem c5_sort_key_mapping :
    sortSpec "price_asc" = [("price", SortDir.asc)] ∧
    sortSpec "price_desc" = [("price", SortDir.desc)] ∧
    sortSpec "points_asc" = [("points", SortDir.asc)] ∧
    (∀ s, ¬ s = "price_asc" → ¬ s = "price_desc" → ¬ s = "points_asc" →
      sortSpec s = [("points", SortDir.desc)]) ∧
    (∀ a : SearchArgs, a.sort_by = none →
      searchSortOrder a = sortSpec "points_desc") ∧
    searchSortOrder (sortOnlyArgs (some "bogus")) = sortSpec "points_desc" := by
  refine ⟨by decide, by decide, by decide, ?_, ?_, by decide⟩
  · intro s h1 h2 h3
    simp [sortSpec, h1, h2, h3]
  · intro a h
    have hs : (parseSearch a).sort_by = "points_desc" := by
      simp only [parseSearch, argOr, h]
      decide
    rw [searchSortOrder, hs]

/-- Witness for C5: a bogus sort key and an absent sort key both fall to
points descending. -/
theorem c5_sort_key_mapping_witness :
    sortSpec "bogus" = [("points", SortDir.desc)] ∧
    searchSortOrder (sortOnlyArgs none) = sortSpec "points_desc" :=
  ⟨c5_sort_key_mapping.2.2.2.1 "bogus" (by decide) (by decide) (by decide),
   c5_sort_key_mapping.2.2.2.2.1 (sortOnlyArgs none) rfl⟩

/-- C7: with non-empty query text, text mode off, and a field selector
outside the recognized set, the filter builder adds no text clause and
the rest of the query is still built, so the request does not fail. -/
theorem c7_unknown_field_drops_text (db : List Wine) (a : SearchArgs)
    (hq : ¬ (parseSearch a).q = "")
    (ht : (parseSearch a).useText = false)
    (hf : ¬ (parseSearch a).field ∈
      (["all", "title", "description", "variety", "winery"] : List String)) :
    textClauses (parseSearch a) = [] ∧
    searchClauses db a =
      facetClauses (parseSearch a) ++ geoClauses db (parseSearch a) := by
  have h1 : ¬ (parseSearch a).field = "all" := fun h => hf (by rw [h]; decide)
  have h2 : ¬ (parseSearch a).field = "title" := fun h => hf (by rw [h]; decide)
  have h3 : ¬ (parseSearch a).field = "description" :=
    fun h => hf (by rw [h]; decide)
  have h4 : ¬ (parseSearch a).field = "variety" := fun h => hf (by rw [h]; decide)
  have h5 : ¬ (parseSearch a).field = "winery" := fun h => hf (by rw [h]; decide)
  have htext : textClauses (parseSearch a) = [] := by
    simp [textClauses, hq, ht, h1, h2, h3, h4, h5]
  exact ⟨htext, by rw [searchClauses, htext]; rfl⟩

/-- Witness for C7 at field selector bogus. -/
theorem c7_unknown_field_witness :
    textClauses (parseSearch unknownFieldArgs) = [] ∧
    searchClauses [] unknownFieldArgs = [] := by
  have h := c7_unknown_field_drops_text [] unknownFieldArgs (by decide)
    (by decide) (by decide)
  refine ⟨h.1, ?_⟩
  rw [h.2, geoClauses_inactive [] (parseSearch unknownFieldArgs) (by decide)
    (by decide) (by decide)]
  rfl
/-- C6: in by_coords mode, a latitude or longitude string that does not
parse as a number silently omits the geo clause (the query is built as
if no geo filtering were requested), while a pair that parses together
with a positive radius yields a geo clause centered exactly at the
parsed longitude-latitude pair. -/
theorem c6_by_coords_parse (db : List Wine) (a : SearchArgs)
    (hmode : (parseSearch a).geo_mode = "by_coords") :
    ((parseFloat (parseSearch a).lat = none ∨
      parseFloat (parseSearch a).lon = none) →
      geoClauses db (parseSearch a) = [] ∧
      searchClauses db a =
        textClauses (parseSearch a) ++ facetClauses (parseSearch a)) ∧
    (∀ la lo, parseFloat (parseSearch a).lat = some la →
      parseFloat (parseSearch a).lon = some lo →
      0 < (parseSearch a).maxM →
      geoClauses db (parseSearch a) =
        [Clause.geoWithin lo la ((parseSearch a).maxM / 6378100)]) := by
  have hm : ¬ ((parseSearch a).geo_mode = "by_area" ∧
      0 < (parseSearch a).maxM ∧
      (¬ (parseSearch a).country = "" ∨ ¬ (parseSearch a).province = "")) := by
    intro hand
    rw [hmode] at hand
    exact absurd hand.1 (by decide)
  constructor
  · intro hpf
    have hgeo : geoClauses db (parseSearch a) = [] := by
      rw [geoClauses, if_neg hm]
      split
      · rcases hpf with hp | hp
        · rw [hp]
        · rcases parseFloat (parseSearch a).lat with _ | la
          · rfl
          · rw [hp]
      · rfl
    refine ⟨hgeo, ?_⟩
    rw [searchClauses, hgeo]
    simp
  · intro la lo hla hlo hpos
    exact geoClauses_by_coords db _ la lo hmode hla hlo hpos

/-- Witness for C6: the latitude abc yields no geo clause, while the
pair lat 1, lon 2 yields a clause centered at lon 2, lat 1. -/
theorem c6_by_coords_witness :
    geoClauses [] (parseSearch badLatArgs) = [] ∧
    geoClauses [] (parseSearch coordArgs) =
      [Clause.geoWithin 2 1 (50000 / 6378100)] := by
  constructor
  · exact ((c6_by_coords_parse [] badLatArgs (by decide)).1
      (Or.inl (by decide))).1
  · have hpos : 0 < (parseSearch coordArgs).maxM := by
      rw [coordArgs_maxM]
      norm_num
    have h := (c6_by_coords_parse [] coordArgs (by decide)).2 1 2
      parseFloat_one parseFloat_two hpos
    rw [h, coordArgs_maxM]

/-- C3 counterexample: the radius string -5 converts successfully to
-5000 metres, so the radius used internally is negative there and the
claimed invariant that the internal radius is always non-negative
fails. -/
theorem c3_counterexample_negative_radius :
    km_to_meters "-5" = -5000 ∧
    (parseSearch negRadiusArgs).maxM = -5000 ∧
    ¬ 0 ≤ (parseSearch negRadiusArgs).maxM := by
  have h2 : (parseSearch negRadiusArgs).maxM = -5000 := kmNeg5
  refine ⟨kmNeg5, h2, ?_⟩
  rw [h2]
  norm_num

theorem textClauses_no_geo (i : SearchInputs) (lon lat rad : ℚ) :
    ¬ Clause.geoWithin lon lat rad ∈ textClauses i := by
  intro h
  unfold textClauses at h
  split at h
  · simp at h
  · split at h
    · simp at h
    · split at h
      · simp at h
      · split at h
        · simp at h
        · simp at h

theorem facetClauses_no_geo (i : SearchInputs) (lon lat rad : ℚ) :
    ¬ Clause.geoWithin lon lat rad ∈ facetClauses i := by
  intro h
  unfold facetClauses at h
  rcases List.mem_append.mp h with h1 | h1
  · split at h1 <;> simp at h1
  · split at h1 <;> simp at h1

theorem geoClauses_radius_pos (db : List Wine) (i : SearchInputs)
    (lon lat rad : ℚ) (h : Clause.geoWithin lon lat rad ∈ geoClauses db i) :
    0 < rad := by
  unfold geoClauses at h
  split at h
  case isTrue hc =>
    split at h
    · simp at h
      obtain ⟨-, -, hrad⟩ := h
      rw [hrad]
      exact div_pos hc.2.1 (by norm_num)
    · simp at h
  case isFalse =>
    split at h
    case isTrue hc =>
      split at h
      · simp at h
        obtain ⟨-, -, hrad⟩ := h
        rw [hrad]
        exact div_pos hc.2.1 (by norm_num)
      · simp at h
    case isFalse => simp at h

/-- C3 amended: a failed kilometre conversion yields zero metres, and
every geo clause the search builds carries a strictly positive radius;
however a parseable negative radius string is stored negative
internally (see the counterexample), the positive-radius gate merely
keeps it out of any geo clause. -/
theorem c3_amended_radius_gate :
    (∀ s, parseFloat s = none → km_to_meters s = 0) ∧
    (∀ (db : List Wine) (a : SearchArgs) (lon lat rad : ℚ),
      Clause.geoWithin lon lat rad ∈ searchClauses db a → 0 < rad) := by
  constructor
  · intro s h
    simp [km_to_meters, h]
  · intro db a lon lat rad h
    rw [searchClauses] at h
    rcases List.mem_append.mp h with h1 | h1
    · rcases List.mem_append.mp h1 with h2 | h2
      · exact absurd h2 (textClauses_no_geo _ lon lat rad)
      · exact absurd h2 (facetClauses_no_geo _ lon lat rad)
    · exact geoClauses_radius_pos db _ lon lat rad h1

/-- Witness for the amended C3: an unparseable radius gives zero, and
the radius of the geo clause of a concrete coordinate search is
positive. -/
theorem c3_amended_radius_gate_witness :
    km_to_meters "abc" = 0 ∧ (0 : ℚ) < 50000 / 6378100 := by
  refine ⟨c3_amended_radius_gate.1 "abc" rfl, ?_⟩
  have hpos : 0 < (parseSearch coordArgs).maxM := by
    rw [coordArgs_maxM]
    norm_num
  have hg : geoClauses [] (parseSearch coordArgs) =
      [Clause.geoWithin 2 1 ((parseSearch coordArgs).maxM / 6378100)] :=
    geoClauses_by_coords [] _ 1 2 (by decide) parseFloat_one parseFloat_two
      hpos
  have hmem : Clause.geoWithin 2 1 (50000 / 6378100) ∈
      searchClauses [] coordArgs := by
    rw [searchClauses]
    refine List.mem_append.mpr (Or.inr ?_)
    rw [hg, coordArgs_maxM]
    exact List.mem_singleton.mpr rfl
  exact c3_amended_radius_gate.2 [] coordArgs 2 1 (50000 / 6378100) hmem
/-- C10: an absent or empty radius parameter defaults to 50 km, 50000
metres internally, so by_area geo filtering with a facet set is active
with no radius supplied: on a concrete collection the centroid clause is
appended to the query. -/
theorem c10_radius_defaults_50km :
    (∀ a : SearchArgs, a.radius = none ∨ a.radius = some "" →
      (parseSearch a).maxM = 50000) ∧
    searchClauses dbFr areaArgsFr =
      [Clause.countryEq "France", Clause.geoWithin 2 48 (50000 / 6378100)] := by
  constructor
  · intro a h
    have hr : argOr a.radius "50" = "50" := by
      rcases h with h | h <;> rw [h] <;> rfl
    simp only [parseSearch, hr]
    exact km50
  · have hparse : parseSearch areaArgsFr =
        { q := "", field := "all", useText := false, country := "France",
          province := "", geo_mode := "by_area", lat := "", lon := "",
          radius := "50", maxM := 50000, sort_by := "points_desc" } := by
      simp only [parseSearch, areaArgsFr, argOr, SearchInputs.mk.injEq]
      refine ⟨by decide, by decide, by decide, by decide, by decide,
        by decide, by decide, by decide, by decide, km50, by decide⟩
    have hc : centroid_for dbFr (some "France") none =
        some (((2 : ℚ) + 0) / ((1 : ℕ) : ℚ), ((48 : ℚ) + 0) / ((1 : ℕ) : ℚ)) :=
      rfl
    have hc2 : centroid_for dbFr (some "France") none = some (2, 48) := by
      rw [hc]
      norm_num
    have hg : geoClauses dbFr (parseSearch areaArgsFr) =
        [Clause.geoWithin 2 48 (50000 / 6378100)] := by
      rw [hparse, geoClauses,
        if_pos ⟨rfl, by norm_num, Or.inl (by decide)⟩,
        show (if ("France" : String) = "" then (none : Option String)
          else some "France") = some "France" from rfl,
        show (if ("" : String) = "" then (none : Option String)
          else some "") = none from rfl,
        hc2]
    rw [searchClauses, hg, hparse]
    rfl

/-- Witness for C10: the France area search with no radius parameter
parses to 50000 metres. -/
theorem c10_radius_defaults_witness :
    (parseSearch areaArgsFr).maxM = 50000 :=
  c10_radius_defaults_50km.1 areaArgsFr (Or.inl rfl)

/-- C2 (code bug): the variety filter of the stats pipeline is written
as the Python dict {"$ne": None, "$ne": ""}, whose duplicated key
leaves only the empty-string exclusion, so null varieties do enter the
grouping: on a country where the null-variety group outnumbers every
real variety, the pipeline reports topVariety null even though Merlot
is the unique non-null, non-empty variety present. -/
theorem c2_null_variety_contributes :
    get_country_stats dbC2 "X" =
      some { avgPrice := none, avgPoints := none, topVariety := none } ∧
    (dbC2.filter (fun w => w.country == some "X" && w.variety != some "" &&
        w.variety != none)).map (fun w => w.variety) = [some "Merlot"] := by
  constructor <;> decide

theorem sortedCappedDistinct_spec (f : Wine → Option String) (db : List Wine)
    (cap : Nat) :
    (sortedCappedDistinct f db cap).Sorted (· ≤ ·) ∧
    (sortedCappedDistinct f db cap).Nodup ∧
    (∀ x ∈ sortedCappedDistinct f db cap, ¬ x = "" ∧ ∃ w ∈ db, f w = some x) ∧
    (sortedCappedDistinct f db cap).length ≤ cap := by
  have hperm : (List.insertionSort (fun a b => a ≤ b)
      (((db.filterMap f).dedup).filter (fun s => s != ""))).Perm
      (((db.filterMap f).dedup).filter (fun s => s != "")) :=
    List.perm_insertionSort _ _
  refine ⟨?_, ?_, ?_, ?_⟩
  · exact List.Pairwise.sublist (List.take_sublist _ _)
      (List.sorted_insertionSort _ _)
  · exact List.Nodup.sublist (List.take_sublist _ _)
      (hperm.nodup_iff.mpr (((db.filterMap f).nodup_dedup).filter _))
  · intro x hx
    have hx1 : x ∈ ((db.filterMap f).dedup).filter (fun s => s != "") :=
      hperm.mem_iff.mp ((List.take_sublist _ _).subset hx)
    have hx2 := List.of_mem_filter hx1
    have hx3 : x ∈ (db.filterMap f).dedup := List.mem_of_mem_filter hx1
    refine ⟨by simpa using hx2, ?_⟩
    have hx4 : x ∈ db.filterMap f := List.mem_dedup.mp hx3
    rcases List.mem_filterMap.mp hx4 with ⟨w, hw, hfw⟩
    exact ⟨w, hw, hfw⟩
  · exact List.length_take_le _ _

/-- C8: the facet lists are sorted, deduplicated, non-empty values
drawn from the collection (the province list scoped to the given
country when one is given), capped at 250 for the two general lists and
at 300 for the country-scoped province list. -/
theorem c8_facet_lists (db : List Wine) (cArg : Option String) :
    ((get_filter_lists db).1.Sorted (· ≤ ·) ∧ (get_filter_lists db).1.Nodup ∧
      (∀ x ∈ (get_filter_lists db).1, ¬ x = "" ∧
        ∃ w ∈ db, w.country = some x) ∧
      (get_filter_lists db).1.length ≤ 250) ∧
    ((get_filter_lists db).2.Sorted (· ≤ ·) ∧ (get_filter_lists db).2.Nodup ∧
      (∀ x ∈ (get_filter_lists db).2, ¬ x = "" ∧
        ∃ w ∈ db, w.province = some x) ∧
      (get_filter_lists db).2.length ≤ 250) ∧
    ((provinces_for_country db cArg).Sorted (· ≤ ·) ∧
      (provinces_for_country db cArg).Nodup ∧
      (∀ x ∈ provinces_for_country db cArg, ¬ x = "" ∧
        ∃ w ∈ db, w.province = some x ∧
          (¬ pyStrip (argOr cArg "") = "" →
            w.country = some (pyStrip (argOr cArg "")))) ∧
      (provinces_for_country db cArg).length ≤ 300) := by
  have h1 := sortedCappedDistinct_spec (fun w => w.country) db 250
  have h2 := sortedCappedDistinct_spec (fun w => w.province) db 250
  refine ⟨⟨h1.1, h1.2.1, h1.2.2.1, h1.2.2.2⟩,
    ⟨h2.1, h2.2.1, h2.2.2.1, h2.2.2.2⟩, ?_⟩
  by_cases hc : pyStrip (argOr cArg "") = ""
  · have hpc : provinces_for_country db cArg =
        sortedCappedDistinct (fun w => w.province) db 300 := by
      rw [provinces_for_country, hc]
      simp
    have h3 := sortedCappedDistinct_spec (fun w => w.province) db 300
    rw [hpc]
    refine ⟨h3.1, h3.2.1, ?_, h3.2.2.2⟩
    intro x hx
    rcases h3.2.2.1 x hx with ⟨hne, w, hw, hfw⟩
    exact ⟨hne, w, hw, hfw, fun hcon => absurd hc hcon⟩
  · have hpc : provinces_for_country db cArg =
        sortedCappedDistinct (fun w => w.province)
          (db.filter (fun w =>
            w.country == some (pyStrip (argOr cArg "")))) 300 := by
      rw [provinces_for_country]
      simp [hc]
    have h3 := sortedCappedDistinct_spec (fun w => w.province)
      (db.filter (fun w => w.country == some (pyStrip (argOr cArg "")))) 300
    rw [hpc]
    refine ⟨h3.1, h3.2.1, ?_, h3.2.2.2⟩
    intro x hx
    rcases h3.2.2.1 x hx with ⟨hne, w, hw, hfw⟩
    have hwdb : w ∈ db := List.mem_of_mem_filter hw
    have hwc := List.of_mem_filter hw
    exact ⟨hne, w, hwdb, hfw, fun _ => by simpa using hwc⟩

/-- Witness for C8: on a concrete collection, Alsace appears in the
France-scoped province list, is non-empty, and comes from a France
record. -/
theorem c8_facet_lists_witness :
    ¬ ("Alsace" : String) = "" ∧ ∃ w ∈ dbFacets, w.province = some "Alsace" ∧
      (¬ pyStrip (argOr (some "France") "") = "" →
        w.country = some (pyStrip (argOr (some "France") ""))) := by
  have h := c8_facet_lists dbFacets (some "France")
  exact h.2.2.2.2.1 "Alsace" (by decide)

theorem takeChars_length_le (n : Nat) (s : String) :
    (takeChars n s).length ≤ n := by
  show (s.data.take n).length ≤ n
  rw [List.length_take]
  exact min_le_left _ _

theorem takeChars_eq_empty_iff (s : String) :
    takeChars 2000 s = "" ↔ s = "" := by
  constructor
  · intro he
    have hdata : s.data.take 2000 = [] := congrArg String.data he
    rcases List.take_eq_nil_iff.mp hdata with h' | h'
    · exact absurd h' (by decide)
    · exact String.ext h'
  · intro he
    rw [he]
    rfl

/-- C4: an empty-after-trim comment text yields a 400 and leaves the
collection unchanged; valid text with a well-formed id matching no
record yields a 404 and leaves the collection unchanged; the comment
written on success has its text capped at 2000 characters and its
author at 120, the author falling back to anonymous when blank after
trimming, and it is appended to the matched record. -/
theorem c4_comment_validation (db : List Wine) (id : String)
    (t a : Option String) (fid : String) (now : Nat) :
    (pyStrip (argOr t "") = "" →
      add_comment db id t a fid now = (CommentResp.badRequest, db)) ∧
    (¬ pyStrip (argOr t "") = "" → isValidObjectId id = true →
      (∀ w ∈ db, ¬ w.idStr = id) →
      add_comment db id t a fid now = (CommentResp.notFound, db)) ∧
    (newComment t a fid now).text.length ≤ 2000 ∧
    (newComment t a fid now).author.length ≤ 120 ∧
    (pyStrip (argOr a "anonymous") = "" →
      (newComment t a fid now).author = "anonymous") ∧
    (¬ pyStrip (argOr t "") = "" → isValidObjectId id = true →
      (∃ w ∈ db, w.idStr = id) →
      add_comment db id t a fid now =
        (CommentResp.redirectToDetail,
         pushFirst id (newComment t a fid now) db)) := by
  refine ⟨?_, ?_, ?_, ?_, ?_, ?_⟩
  · intro h
    have htext : takeChars 2000 (pyStrip (argOr t "")) = "" :=
      (takeChars_eq_empty_iff _).mpr h
    simp only [add_comment, htext]
    simp
  · intro h hv hnone
    have hne : ¬ takeChars 2000 (pyStrip (argOr t "")) = "" :=
      fun he => h ((takeChars_eq_empty_iff _).mp he)
    have hany : ¬ db.any (fun w => w.idStr == id) = true := by
      simp only [List.any_eq_true]
      rintro ⟨w, hw, hbeq⟩
      exact hnone w hw (eq_of_beq hbeq)
    simp only [add_comment]
    rw [if_neg hne, if_neg (not_not_intro hv), if_neg hany]
  · exact takeChars_length_le 2000 _
  · show (strOr (takeChars 120 (pyStrip (argOr a "anonymous")))
      "anonymous").length ≤ 120
    rw [strOr]
    split
    · decide
    · exact takeChars_length_le 120 _
  · intro h
    show strOr (takeChars 120 (pyStrip (argOr a "anonymous")))
      "anonymous" = "anonymous"
    rw [h]
    rfl
  · intro h hv hsome
    have hne : ¬ takeChars 2000 (pyStrip (argOr t "")) = "" :=
      fun he => h ((takeChars_eq_empty_iff _).mp he)
    have hany : db.any (fun w => w.idStr == id) = true := by
      simp only [List.any_eq_true]
      rcases hsome with ⟨w, hw, heq⟩
      exact ⟨w, hw, beq_iff_eq.mpr heq⟩
    simp only [add_comment]
    rw [if_neg hne, if_neg (not_not_intro hv), if_pos hany]

/-- Witness for C4: whitespace text is rejected with the collection
unchanged, a well-formed unknown id is not found, and a successful
append stores an anonymous author for a blank author field. -/
theorem c4_comment_validation_witness :
    add_comment dbOneWine "0123456789abcdef01234567" (some "   ")
      (some "bob") "f" 0 = (CommentResp.badRequest, dbOneWine) ∧
    add_comment dbOneWine "aaaaaaaaaaaaaaaaaaaaaaaa" (some "nice")
      (some "bob") "f" 0 = (CommentResp.notFound, dbOneWine) ∧
    add_comment dbOneWine "0123456789abcdef01234567" (some "nice")
      (some " ") "f" 0 = (CommentResp.redirectToDetail,
        pushFirst "0123456789abcdef01234567"
          (newComment (some "nice") (some " ") "f" 0) dbOneWine) ∧
    (newComment (some "nice") (some " ") "f" 0).author = "anonymous" := by
  refine ⟨(c4_comment_validation dbOneWine "0123456789abcdef01234567"
      (some "   ") (some "bob") "f" 0).1 (by decide),
    (c4_comment_validation dbOneWine "aaaaaaaaaaaaaaaaaaaaaaaa"
      (some "nice") (some "bob") "f" 0).2.1 (by decide) (by decide)
      (by decide),
    (c4_comment_validation dbOneWine "0123456789abcdef01234567"
      (some "nice") (some " ") "f" 0).2.2.2.2.2 (by decide) (by decide)
      (by decide),
    (c4_comment_validation dbOneWine "0123456789abcdef01234567"
      (some "nice") (some " ") "f" 0).2.2.2.2.1 (by decide)⟩

/-- C9: an ill-formed asset id or a failed blob lookup serves the
default asset when it exists, so the failure is not a server error, and
the not-found response arises exactly when the default asset itself is
missing. -/
theorem c9_image_fallback (dflt : Option (List Nat))
    (lookup : String → Option BlobFile) (id : String) :
    ((isValidObjectId id = false ∨ lookup id = none) →
      (dflt = none → get_image dflt lookup id = ImageResp.missing) ∧
      (∀ d, dflt = some d →
        get_image dflt lookup id = ImageResp.defaultAsset)) ∧
    (get_image dflt lookup id = ImageResp.missing → dflt = none) := by
  have hfb : (isValidObjectId id = false ∨ lookup id = none) →
      get_image dflt lookup id = (match dflt with
        | some _ => ImageResp.defaultAsset
        | none => ImageResp.missing) := by
    intro h
    by_cases hv : isValidObjectId id = true
    · rcases h with h | h
      · rw [hv] at h
        exact absurd h (by decide)
      · simp only [get_image]
        rw [if_pos hv, h]
    · simp only [get_image]
      rw [if_neg hv]
  constructor
  · intro h
    constructor
    · intro hd
      rw [hfb h, hd]
    · intro d hd
      rw [hfb h, hd]
  · intro h
    rcases hd : dflt with _ | d
    · rfl
    · exfalso
      rw [hd] at h
      by_cases hv : isValidObjectId id = true
      · rcases hl : lookup id with _ | f
        · rw [show get_image (some d) lookup id = ImageResp.defaultAsset from
            by simp only [get_image]; rw [if_pos hv, hl]] at h
          exact ImageResp.noConfusion h
        · have hgi : ¬ get_image (some d) lookup id = ImageResp.missing := by
            simp only [get_image]
            rw [if_pos hv, hl]
            exact fun hx => ImageResp.noConfusion hx
          exact hgi h
      · rw [show get_image (some d) lookup id = ImageResp.defaultAsset from
          by simp only [get_image]; rw [if_neg hv]] at h
        exact ImageResp.noConfusion h

/-- Witness for C9: an ill-formed id with a present default asset
serves the default asset. -/
theorem c9_image_fallback_witness :
    get_image (some [7]) (fun _ => none) "zz" = ImageResp.defaultAsset :=
  ((c9_image_fallback (some [7]) (fun _ => none) "zz").1
    (Or.inl (by decide))).2 [7] rfl

end WineApp
